import Mathlib

/-!
Shallow embedding of the mood-tracking analytics engine of `backend.py`
(class `MoodChatAI`): the append-only mood log, the derived statistics,
the 14-day alert window, the recommendation rule, and the
logging/persist path.  A pandas `DataFrame` row becomes a `MoodRecord`,
the frame becomes a `List MoodRecord`, `datetime` timestamps become
integer day counts, and Python floats become `ℚ`.  The external
sentiment pipeline and the random advice draw are passed in as
parameters, matching their role as opaque collaborators.
-/

namespace MoodChat

/-- Embeds one row of `self.df` in `backend.py`.  The `mood` and
`alertLevel` columns are free-form strings in the DataFrame, so they
are embedded as `String`. -/
structure MoodRecord where
  date : Int
  entry : String
  mood : String
  confidence : ℚ
  advice : String
  alertLevel : String
deriving DecidableEq, Repr

/-- Convenience constructor for concrete test logs. -/
def mkRec (d : Int) (m : String) : MoodRecord :=
  { date := d, entry := "", mood := m, confidence := 1, advice := "", alertLevel := "LOW" }

/-- Embeds Python `s.strip()`: drop leading and trailing whitespace. -/
def pyStrip (s : String) : String :=
  ⟨((s.data.dropWhile Char.isWhitespace).reverse.dropWhile Char.isWhitespace).reverse⟩

/-- Embeds the Python slice `s[:n]`: the first `n` characters. -/
def pySlice (n : Nat) (s : String) : String :=
  ⟨s.data.take n⟩

/-- Embeds Python `round(x, ndigits)`.  Mathlib `round` rounds halves
up while Python rounds halves to even; no statement below touches an
exact half. -/
def py_round (ndigits : Nat) (x : ℚ) : ℚ :=
  ((round (x * 10 ^ ndigits) : ℤ) : ℚ) / 10 ^ ndigits

/-- Embeds the output contract of the sentiment pipeline
(`emotion_result` in `analyze_mood`): a label and a score. -/
structure ClassifierOutput where
  label : String
  score : ℚ

/-- Embeds `self.advice_map` (backend.py lines 35-52) together with the
`.get(mood_label, ["Stay mindful."])` default used in `analyze_mood`. -/
def advice_map (mood_label : String) : List String :=
  if mood_label = "POSITIVE" then
    ["Amazing! Keep channeling this positive energy! 🌟",
     "Your optimism is contagious. Share it with others!",
     "Keep doing what you\x27re doing. You\x27re thriving!"]
  else if mood_label = "NEGATIVE" then
    ["It\x27s okay to feel down. Consider talking to someone. 💙",
     "Take a 15-minute walk or practice deep breathing.",
     "Reach out to a friend or therapist. You\x27re not alone.",
     "Try journaling or meditation to process these feelings."]
  else if mood_label = "NEUTRAL" then
    ["Keep journaling daily for better insights! 📝",
     "How can you make today a bit better?",
     "Your feelings matter. Keep tracking them."]
  else
    ["Stay mindful."]

/-- Embeds `MoodChatAI.analyze_mood` (backend.py lines 54-78).
`classify` stands for the external `emotion_analyzer` pipeline and
`pick` for `random.choice`, both opaque collaborators of the core. -/
def analyze_mood (classify : String → ClassifierOutput)
    (pick : List String → String) (entry : String) :
    Option String × ℚ × String :=
  if pyStrip entry = "" then
    (none, 0, "Please enter your feelings to get started.")
  else
    let emotion_result := classify (pySlice 512 entry)
    let label := emotion_result.label
    let confidence := emotion_result.score
    let mood_label :=
      if label = "POSITIVE" then "POSITIVE"
      else if label = "NEGATIVE" then "NEGATIVE"
      else "NEUTRAL"
    (some mood_label, confidence, pick (advice_map mood_label))

/-- Embeds the state of the store: `df` is the in-memory DataFrame
`self.df`, `file` is the content of the durable CSV `self.csv_file`. -/
structure StoreState where
  df : List MoodRecord
  file : List MoodRecord
deriving DecidableEq, Repr

/-- Embeds `MoodChatAI.log_mood` (backend.py lines 80-100) together
with its persist step.  `persistOk` injects the outcome of
`self.df.to_csv`: when the write fails, the exception propagates
(`Except.error`) after `self.df` has already been reassigned, mirroring
the source order `self.df = pd.concat(...)` then
`self.df.to_csv(...)`. -/
def log_mood (classify : String → ClassifierOutput)
    (pick : List String → String) (today : Int) (persistOk : Bool)
    (s : StoreState) (entry : String) :
    StoreState × Except String (Option String × ℚ × String) :=
  match analyze_mood classify pick entry with
  | (none, _, advice) => (s, Except.ok (none, 0, advice))
  | (some mood_label, confidence, advice) =>
    let new_entry : MoodRecord :=
      { date := today, entry := pySlice 200 entry, mood := mood_label,
        confidence := confidence, advice := advice, alertLevel := "LOW" }
    let df2 := s.df ++ [new_entry]
    if persistOk then
      ({ df := df2, file := df2 }, Except.ok (some mood_label, confidence, advice))
    else
      ({ df := df2, file := s.file }, Except.error "to_csv failed")

/-- Embeds the local `recent_df` of `check_alert`: records with
`date >= today - timedelta(days=14)`. -/
def recent_window (df : List MoodRecord) (now : Int) : List MoodRecord :=
  df.filter (fun r => now - 14 ≤ r.date)

/-- Embeds the local `negative_percentage` of `check_alert`:
`(negative_count / total_count) * 100` over the 14-day window. -/
def negative_percentage (df : List MoodRecord) (now : Int) : ℚ :=
  (((recent_window df now).filter (fun r => r.mood = "NEGATIVE")).length : ℚ)
    / ((recent_window df now).length : ℚ) * 100

/-- Embeds the alert message
`f"{negative_percentage:.0f}% negative days detected."`. -/
def alertMessage (p : ℚ) : String :=
  toString (round p) ++ "% negative days detected."

/-- Embeds `MoodChatAI.check_alert` (backend.py lines 102-129).  `df`
is the in-memory log and `now` the value of `datetime.today()`. -/
def check_alert (df : List MoodRecord) (now : Int) : Bool × String × String :=
  if df.length < 7 then
    (false, "LOW", "Not enough data yet.")
  else if (recent_window df now).length < 7 then
    (false, "LOW", "Not enough data for 2-week analysis.")
  else if negative_percentage df now ≥ 70 then
    (true, "CRITICAL", alertMessage (negative_percentage df now))
  else if negative_percentage df now ≥ 50 then
    (true, "HIGH", alertMessage (negative_percentage df now))
  else if negative_percentage df now ≥ 30 then
    (true, "MEDIUM", alertMessage (negative_percentage df now))
  else
    (false, "LOW", "Mood is stable.")

/-- Embeds `self.df.tail(7)` in `get_mood_stats`: the last (at most)
seven records. -/
def tail7 (df : List MoodRecord) : List MoodRecord :=
  df.drop (df.length - 7)

/-- Embeds `self.df.iloc[:-7]` in `get_mood_stats`: all records before
the last seven (empty when the log has at most seven records). -/
def before7 (df : List MoodRecord) : List MoodRecord :=
  df.take (df.length - 7)

/-- Embeds the local `recent_positive` of `get_mood_stats`:
`recent.get("POSITIVE", 0) / len(self.df.tail(7))`. -/
def recent_fraction (df : List MoodRecord) : ℚ :=
  (((tail7 df).filter (fun r => r.mood = "POSITIVE")).length : ℚ)
    / ((tail7 df).length : ℚ)

/-- Embeds the local `past_positive` of `get_mood_stats`:
`past.get("POSITIVE", 0) / len(self.df.iloc[:-7])` when that slice is
non-empty, else `0`. -/
def past_fraction (df : List MoodRecord) : ℚ :=
  if 0 < (before7 df).length then
    (((before7 df).filter (fun r => r.mood = "POSITIVE")).length : ℚ)
      / ((before7 df).length : ℚ)
  else 0

/-- Embeds the dict returned by `get_mood_stats`.  The Python function
returns dicts with two different key sets: the empty-log branch omits
the `positive_percentage` and `avg_confidence` keys, so those fields
are `Option ℚ` with `none` standing for an absent key. -/
structure Stats where
  total_entries : Nat
  positive_days : Nat
  negative_days : Nat
  neutral_days : Nat
  positive_percentage : Option ℚ
  trend : String
  avg_confidence : Option ℚ
deriving DecidableEq, Repr

/-- Embeds `MoodChatAI.get_mood_stats` (backend.py lines 131-169). -/
def get_mood_stats (df : List MoodRecord) : Stats :=
  if df.length = 0 then
    { total_entries := 0, positive_days := 0, negative_days := 0,
      neutral_days := 0, positive_percentage := none, trend := "No data",
      avg_confidence := none }
  else
    { total_entries := df.length,
      positive_days := (df.filter (fun r => r.mood = "POSITIVE")).length,
      negative_days := (df.filter (fun r => r.mood = "NEGATIVE")).length,
      neutral_days := (df.filter (fun r => r.mood = "NEUTRAL")).length,
      positive_percentage := some
        (if 0 < df.length then
          py_round 1 (((df.filter (fun r => r.mood = "POSITIVE")).length : ℚ)
            / (df.length : ℚ) * 100)
         else 0),
      trend :=
        if 2 ≤ df.length then
          if recent_fraction df > past_fraction df then "Improving 📈"
          else if recent_fraction df < past_fraction df then "Declining 📉"
          else "Stable ➡️"
        else "Not enough data",
      avg_confidence := some
        (if 0 < df.length then
          py_round 3 ((df.map (fun r => r.confidence)).sum / (df.length : ℚ))
         else 0) }

/-- Embeds `MoodChatAI._get_recommendation` (backend.py lines 195-205).
Accessing the `positive_percentage` key of the stats dict raises
`KeyError` when the key is absent, embedded as `none`. -/
def get_recommendation (stats : Stats) : Option String :=
  if stats.total_entries < 7 then
    some "Keep logging your mood daily to get personalized insights!"
  else
    match stats.positive_percentage with
    | none => none
    | some p =>
      if p ≥ 70 then
        some "Great work! Maintain your current positive momentum! 🎉"
      else if p ≤ 30 then
        some "Consider reaching out to a mental health professional. Your wellbeing matters! 💙"
      else
        some "Your mood is balanced. Keep tracking and stay mindful!"

/-- Embeds the outcome of `pd.read_csv` on the durable file in
`MoodChatAI.__init__`: the file may be absent (`read_csv` raises
`FileNotFoundError`), or present with rows whose `date` column either
parses under `pd.to_datetime` or raises a parse error. -/
inductive CsvRead
  | fileNotFound
  | parsed (dateOk : Bool) (records : List MoodRecord)
deriving DecidableEq

/-- Embeds the load logic of `MoodChatAI.__init__` (backend.py lines
26-32): `try: read_csv; to_datetime / except FileNotFoundError: empty
frame`.  Only `FileNotFoundError` is caught; a date-parse failure
propagates to the caller. -/
def init_load : CsvRead → Except String (List MoodRecord)
  | .fileNotFound => .ok []
  | .parsed true records => .ok records
  | .parsed false _ => .error "date column cannot be parsed"

/-- Builds a log of `n` records, the first `k` NEGATIVE and the rest
POSITIVE, all dated `d`. -/
def negLog (k n : Nat) (d : Int) : List MoodRecord :=
  (List.range n).map (fun i => mkRec d (if i < k then "NEGATIVE" else "POSITIVE"))

/-- Builds a ten-record log: three NEGATIVE records followed by four
POSITIVE, two NEUTRAL and one NEGATIVE, all dated day `0`. -/
def demoLog : List MoodRecord :=
  ["NEGATIVE", "NEGATIVE", "NEGATIVE", "POSITIVE", "POSITIVE", "POSITIVE",
   "POSITIVE", "NEUTRAL", "NEUTRAL", "NEGATIVE"].map (mkRec 0)

/-- C1: on a log of size at least 7 whose trailing 14-day window holds
at least 7 records, `check_alert` tiers the negative percentage of the
window first match wins: at least 70 percent gives a triggered CRITICAL
alert, at least 50 HIGH, at least 30 MEDIUM, and otherwise a
non-triggered LOW result with the stable-mood message. -/
theorem check_alert_tiering (df : List MoodRecord) (now : Int)
    (h1 : 7 ≤ df.length) (h2 : 7 ≤ (recent_window df now).length) :
    check_alert df now =
      if negative_percentage df now ≥ 70 then
        (true, "CRITICAL", alertMessage (negative_percentage df now))
      else if negative_percentage df now ≥ 50 then
        (true, "HIGH", alertMessage (negative_percentage df now))
      else if negative_percentage df now ≥ 30 then
        (true, "MEDIUM", alertMessage (negative_percentage df now))
      else
        (false, "LOW", "Mood is stable.") := by
  unfold check_alert
  rw [if_neg (by omega), if_neg (by omega)]

/-- Witness for C1: a window of 10 records with 7, 5, 3 and 2 NEGATIVE
yields CRITICAL, HIGH, MEDIUM and a non-triggered LOW respectively. -/
theorem check_alert_tiering_witness :
    7 ≤ (negLog 7 10 0).length ∧ 7 ≤ (recent_window (negLog 7 10 0) 0).length ∧
    (check_alert (negLog 7 10 0) 0).1 = true ∧
    (check_alert (negLog 7 10 0) 0).2.1 = "CRITICAL" ∧
    (check_alert (negLog 5 10 0) 0).1 = true ∧
    (check_alert (negLog 5 10 0) 0).2.1 = "HIGH" ∧
    (check_alert (negLog 3 10 0) 0).1 = true ∧
    (check_alert (negLog 3 10 0) 0).2.1 = "MEDIUM" ∧
    check_alert (negLog 2 10 0) 0 = (false, "LOW", "Mood is stable.") := by
  have hp7 : negative_percentage (negLog 7 10 0) 0 = 70 := by
    unfold negative_percentage
    rw [show ((recent_window (negLog 7 10 0) 0).filter
          (fun r => r.mood = "NEGATIVE")).length = 7 from by decide]
    rw [show (recent_window (negLog 7 10 0) 0).length = 10 from by decide]
    norm_num
  have hp5 : negative_percentage (negLog 5 10 0) 0 = 50 := by
    unfold negative_percentage
    rw [show ((recent_window (negLog 5 10 0) 0).filter
          (fun r => r.mood = "NEGATIVE")).length = 5 from by decide]
    rw [show (recent_window (negLog 5 10 0) 0).length = 10 from by decide]
    norm_num
  have hp3 : negative_percentage (negLog 3 10 0) 0 = 30 := by
    unfold negative_percentage
    rw [show ((recent_window (negLog 3 10 0) 0).filter
          (fun r => r.mood = "NEGATIVE")).length = 3 from by decide]
    rw [show (recent_window (negLog 3 10 0) 0).length = 10 from by decide]
    norm_num
  have hp2 : negative_percentage (negLog 2 10 0) 0 = 20 := by
    unfold negative_percentage
    rw [show ((recent_window (negLog 2 10 0) 0).filter
          (fun r => r.mood = "NEGATIVE")).length = 2 from by decide]
    rw [show (recent_window (negLog 2 10 0) 0).length = 10 from by decide]
    norm_num
  have e7 := check_alert_tiering (negLog 7 10 0) 0 (by decide) (by decide)
  rw [hp7, if_pos (by norm_num)] at e7
  have e5 := check_alert_tiering (negLog 5 10 0) 0 (by decide) (by decide)
  rw [hp5, if_neg (by norm_num), if_pos (by norm_num)] at e5
  have e3 := check_alert_tiering (negLog 3 10 0) 0 (by decide) (by decide)
  rw [hp3, if_neg (by norm_num), if_neg (by norm_num), if_pos (by norm_num)] at e3
  have e2 := check_alert_tiering (negLog 2 10 0) 0 (by decide) (by decide)
  rw [hp2, if_neg (by norm_num), if_neg (by norm_num), if_neg (by norm_num)] at e2
  refine ⟨by decide, by decide, ?_, ?_, ?_, ?_, ?_, ?_, e2⟩ <;>
    simp [e7, e5, e3]

/-- C2: a persist failure during append does NOT roll the in-memory log
back.  At the failing input below, `log_mood` raises while the new
record stays in `self.df` and is absent from the durable file, so the
in-memory log differs from its pre-append content. -/
theorem log_mood_persist_failure_no_rollback :
    (log_mood (fun _ => ⟨"POSITIVE", 1⟩) (fun l => l.headD "") 0 false
        ⟨[], []⟩ "hello").2 = Except.error "to_csv failed" ∧
    (log_mood (fun _ => ⟨"POSITIVE", 1⟩) (fun l => l.headD "") 0 false
        ⟨[], []⟩ "hello").1.df ≠ [] ∧
    (log_mood (fun _ => ⟨"POSITIVE", 1⟩) (fun l => l.headD "") 0 false
        ⟨[], []⟩ "hello").1.file = [] := by
  refine ⟨rfl, ?_, rfl⟩
  decide

/-- C3: on the empty log, `get_mood_stats` returns zero counts and the
"No data" trend, but the returned dict has no `positive_percentage` key
at all (and no `avg_confidence` key), so the field is not present with
value 0 as claimed. -/
theorem get_mood_stats_empty_missing_percentage :
    get_mood_stats [] =
      { total_entries := 0, positive_days := 0, negative_days := 0,
        neutral_days := 0, positive_percentage := none, trend := "No data",
        avg_confidence := none } ∧
    (get_mood_stats []).positive_percentage ≠ some 0 := by
  exact ⟨rfl, by decide⟩

/-- C4: for a log with at least two records, the trend compares the
POSITIVE fraction of the last seven records with the POSITIVE fraction
of all earlier records (0 when that partition is empty): greater gives
Improving, smaller Declining, equal Stable; a one-record log gives the
insufficient-data sentinel. -/
theorem trend_rule (df : List MoodRecord) :
    (2 ≤ df.length →
      (get_mood_stats df).trend =
        if recent_fraction df > past_fraction df then "Improving 📈"
        else if recent_fraction df < past_fraction df then "Declining 📉"
        else "Stable ➡️") ∧
    (df.length = 1 → (get_mood_stats df).trend = "Not enough data") := by
  constructor
  · intro h
    have h0 : ¬ df.length = 0 := by omega
    simp [get_mood_stats, h0, h]
  · intro h
    simp [get_mood_stats, h]

/-- Witness for C4: ten records whose first three (the past partition)
are all NEGATIVE and whose last seven contain four POSITIVE records
give fractions 0 and 4/7, hence trend Improving. -/
theorem trend_rule_witness :
    2 ≤ demoLog.length ∧ (get_mood_stats demoLog).trend = "Improving 📈" := by
  have hr : recent_fraction demoLog = 4 / 7 := by
    unfold recent_fraction
    rw [show ((tail7 demoLog).filter
          (fun r => r.mood = "POSITIVE")).length = 4 from by decide]
    rw [show (tail7 demoLog).length = 7 from by decide]
    norm_num
  have hp : past_fraction demoLog = 0 := by
    unfold past_fraction
    rw [show ((before7 demoLog).filter
          (fun r => r.mood = "POSITIVE")).length = 0 from by decide]
    simp
  have h := (trend_rule demoLog).1 (by decide)
  rw [hr, hp] at h
  rw [if_pos (by norm_num)] at h
  exact ⟨by decide, h⟩

/-- C5: a log with fewer than 7 records gives a non-triggered LOW alert
with the insufficient-data message, and a log of at least 7 records
whose 14-day window holds fewer than 7 gives a non-triggered LOW alert
with the insufficient-window message, regardless of label
distribution. -/
theorem check_alert_insufficient_data (df : List MoodRecord) (now : Int) :
    (df.length < 7 →
      check_alert df now = (false, "LOW", "Not enough data yet.")) ∧
    (7 ≤ df.length → (recent_window df now).length < 7 →
      check_alert df now =
        (false, "LOW", "Not enough data for 2-week analysis.")) := by
  constructor
  · intro h
    unfold check_alert
    rw [if_pos h]
  · intro h1 h2
    unfold check_alert
    rw [if_neg (by omega), if_pos h2]

/-- Witness for C5: five records, all NEGATIVE, give the
insufficient-data result; ten records dated 20 days before `now` give
the insufficient-window result. -/
theorem check_alert_insufficient_data_witness :
    (negLog 5 5 0).length < 7 ∧
    check_alert (negLog 5 5 0) 0 = (false, "LOW", "Not enough data yet.") ∧
    7 ≤ (negLog 10 10 (-20)).length ∧
    (recent_window (negLog 10 10 (-20)) 0).length < 7 ∧
    check_alert (negLog 10 10 (-20)) 0 =
      (false, "LOW", "Not enough data for 2-week analysis.") :=
  ⟨by decide,
   (check_alert_insufficient_data (negLog 5 5 0) 0).1 (by decide),
   by decide, by decide,
   (check_alert_insufficient_data (negLog 10 10 (-20)) 0).2 (by decide) (by decide)⟩

/-- C6: for entry text that is non-empty after stripping, `log_mood`
appends exactly one record to the in-memory log, leaving all prior
records unchanged; its mood label is one of POSITIVE, NEGATIVE,
NEUTRAL, its confidence is the classifier score (in `[0,1]` under the
classifier contract), and its stored text is the entry truncated to 200
characters. -/
theorem log_mood_appends_one (classify : String → ClassifierOutput)
    (pick : List String → String) (today : Int) (persistOk : Bool)
    (s : StoreState) (entry : String)
    (hne : pyStrip entry ≠ "")
    (hc0 : 0 ≤ (classify (pySlice 512 entry)).score)
    (hc1 : (classify (pySlice 512 entry)).score ≤ 1) :
    ∃ r : MoodRecord,
      (log_mood classify pick today persistOk s entry).1.df = s.df ++ [r] ∧
      (r.mood = "POSITIVE" ∨ r.mood = "NEGATIVE" ∨ r.mood = "NEUTRAL") ∧
      0 ≤ r.confidence ∧ r.confidence ≤ 1 ∧
      r.entry = pySlice 200 entry := by
  have hA : analyze_mood classify pick entry =
      (some (if (classify (pySlice 512 entry)).label = "POSITIVE" then "POSITIVE"
             else if (classify (pySlice 512 entry)).label = "NEGATIVE" then "NEGATIVE"
             else "NEUTRAL"),
       (classify (pySlice 512 entry)).score,
       pick (advice_map
         (if (classify (pySlice 512 entry)).label = "POSITIVE" then "POSITIVE"
          else if (classify (pySlice 512 entry)).label = "NEGATIVE" then "NEGATIVE"
          else "NEUTRAL"))) := by
    unfold analyze_mood
    rw [if_neg hne]
  refine ⟨{ date := today, entry := pySlice 200 entry,
            mood := if (classify (pySlice 512 entry)).label = "POSITIVE" then "POSITIVE"
                    else if (classify (pySlice 512 entry)).label = "NEGATIVE" then "NEGATIVE"
                    else "NEUTRAL",
            confidence := (classify (pySlice 512 entry)).score,
            advice := pick (advice_map
              (if (classify (pySlice 512 entry)).label = "POSITIVE" then "POSITIVE"
               else if (classify (pySlice 512 entry)).label = "NEGATIVE" then "NEGATIVE"
               else "NEUTRAL")),
            alertLevel := "LOW" }, ?_, ?_, hc0, hc1, rfl⟩
  · unfold log_mood
    rw [hA]
    cases persistOk <;> rfl
  · split_ifs <;> simp

/-- Witness for C6: a concrete classifier returning POSITIVE with score
1 on the entry "hello" appends one record with those properties. -/
theorem log_mood_appends_one_witness :
    pyStrip "hello" ≠ "" ∧
    (0 : ℚ) ≤ (1 : ℚ) ∧ (1 : ℚ) ≤ (1 : ℚ) ∧
    ∃ r : MoodRecord,
      (log_mood (fun _ => ⟨"POSITIVE", 1⟩) (fun l => l.headD "") 0 true
          ⟨[], []⟩ "hello").1.df = [] ++ [r] ∧
      (r.mood = "POSITIVE" ∨ r.mood = "NEGATIVE" ∨ r.mood = "NEUTRAL") ∧
      0 ≤ r.confidence ∧ r.confidence ≤ 1 ∧
      r.entry = pySlice 200 "hello" :=
  ⟨by decide, by norm_num, by norm_num,
   log_mood_appends_one (fun _ => ⟨"POSITIVE", 1⟩) (fun l => l.headD "") 0 true
     ⟨[], []⟩ "hello" (by decide) (by norm_num) (by norm_num)⟩

/-- C7: for entry text that is empty or whitespace-only after trimming,
`log_mood` returns the please-provide-input result with no label, and
leaves both the in-memory log and the durable file untouched: the store
state is returned unchanged and no persist happens. -/
theorem log_mood_empty_input (classify : String → ClassifierOutput)
    (pick : List String → String) (today : Int) (persistOk : Bool)
    (s : StoreState) (entry : String) (h : pyStrip entry = "") :
    log_mood classify pick today persistOk s entry =
      (s, Except.ok (none, 0, "Please enter your feelings to get started.")) := by
  unfold log_mood analyze_mood
  rw [if_pos h]

/-- Witness for C7: a whitespace-only entry leaves a one-record store
unchanged and returns the please-provide-input result. -/
theorem log_mood_empty_input_witness :
    pyStrip "   " = "" ∧
    log_mood (fun _ => ⟨"POSITIVE", 1⟩) (fun l => l.headD "") 0 true
        ⟨[mkRec 0 "NEUTRAL"], [mkRec 0 "NEUTRAL"]⟩ "   " =
      (⟨[mkRec 0 "NEUTRAL"], [mkRec 0 "NEUTRAL"]⟩,
       Except.ok (none, 0, "Please enter your feelings to get started.")) :=
  ⟨by decide,
   log_mood_empty_input (fun _ => ⟨"POSITIVE", 1⟩) (fun l => l.headD "") 0 true
     ⟨[mkRec 0 "NEUTRAL"], [mkRec 0 "NEUTRAL"]⟩ "   " (by decide)⟩

/-- C8: at construction, a missing durable file loads as the empty log
without error, while a present file whose date column cannot be parsed
loads as an error that is surfaced, never as an `ok` log of any
content — the two cases are distinguished. -/
theorem init_load_distinguishes (records : List MoodRecord) :
    init_load .fileNotFound = .ok [] ∧
    init_load (.parsed false records) = .error "date column cannot be parsed" ∧
    ∀ l : List MoodRecord, init_load (.parsed false records) ≠ .ok l := by
  refine ⟨rfl, rfl, ?_⟩
  intro l h
  simp [init_load] at h

/-- C9: the recommendation rule, first match wins: fewer than 7 entries
gives the keep-logging prompt; else percentage at least 70 the
congratulatory template; else at most 30 the professional-help
template; else the balanced template. -/
theorem recommendation_rule (s : Stats) (p : ℚ)
    (hp : s.positive_percentage = some p) :
    get_recommendation s = some
      (if s.total_entries < 7 then
        "Keep logging your mood daily to get personalized insights!"
       else if p ≥ 70 then
        "Great work! Maintain your current positive momentum! 🎉"
       else if p ≤ 30 then
        "Consider reaching out to a mental health professional. Your wellbeing matters! 💙"
       else
        "Your mood is balanced. Keep tracking and stay mindful!") := by
  unfold get_recommendation
  rw [hp]
  by_cases h : s.total_entries < 7
  · rw [if_pos h, if_pos h]
  · rw [if_neg h, if_neg h]
    show (if p ≥ 70 then some "Great work! Maintain your current positive momentum! 🎉"
          else if p ≤ 30 then some "Consider reaching out to a mental health professional. Your wellbeing matters! 💙"
          else some "Your mood is balanced. Keep tracking and stay mindful!") =
      some (if p ≥ 70 then "Great work! Maintain your current positive momentum! 🎉"
            else if p ≤ 30 then "Consider reaching out to a mental health professional. Your wellbeing matters! 💙"
            else "Your mood is balanced. Keep tracking and stay mindful!")
    split_ifs <;> rfl

/-- Witness for C9: ten entries with percentage 75, 20 and 50 give the
congratulatory, professional-help and balanced templates. -/
theorem recommendation_rule_witness :
    get_recommendation ⟨10, 0, 0, 0, some 75, "", none⟩ =
      some "Great work! Maintain your current positive momentum! 🎉" ∧
    get_recommendation ⟨10, 0, 0, 0, some 20, "", none⟩ =
      some "Consider reaching out to a mental health professional. Your wellbeing matters! 💙" ∧
    get_recommendation ⟨10, 0, 0, 0, some 50, "", none⟩ =
      some "Your mood is balanced. Keep tracking and stay mindful!" :=
  ⟨(recommendation_rule ⟨10, 0, 0, 0, some 75, "", none⟩ 75 rfl).trans (by decide),
   (recommendation_rule ⟨10, 0, 0, 0, some 20, "", none⟩ 20 rfl).trans (by decide),
   (recommendation_rule ⟨10, 0, 0, 0, some 50, "", none⟩ 50 rfl).trans (by decide)⟩

/-- C10: `log_mood` only ever extends the in-memory log with records
whose alert level is the constant "LOW"; every already-stored record is
carried over unchanged, so no operation rewrites the alert level of a
stored record. -/
theorem log_mood_alert_level_LOW (classify : String → ClassifierOutput)
    (pick : List String → String) (today : Int) (persistOk : Bool)
    (s : StoreState) (entry : String) :
    ∃ tl : List MoodRecord,
      (log_mood classify pick today persistOk s entry).1.df = s.df ++ tl ∧
      ∀ r ∈ tl, r.alertLevel = "LOW" := by
  unfold log_mood
  cases hA : analyze_mood classify pick entry with
  | mk ml rest =>
    cases ml with
    | none =>
      exact ⟨[], by simp, by simp⟩
    | some m =>
      cases rest with
      | mk conf adv =>
        cases persistOk
        · exact ⟨[⟨today, pySlice 200 entry, m, conf, adv, "LOW"⟩],
            by simp, by simp⟩
        · exact ⟨[⟨today, pySlice 200 entry, m, conf, adv, "LOW"⟩],
            by simp, by simp⟩

end MoodChat
